import Mathlib

/-!
Shallow embedding of the data-access layer of the task-manager repository
(files final.py, database.py, with_mail.py, old.py). The two tables become
lists of records held in a `Store`; each SQL statement of the source becomes
a pure function on `Store`. Task rows are appended on insert, so the task
list is in insertion order, matching the unordered SELECTs of the source
which return rowid/serial order.
-/

namespace TaskApp

/-- A row of the `users` table (database.py lines 24-32 / with_mail.py lines
33-41): serial id, UNIQUE username, UNIQUE email, plaintext password, and a
user_type tag from Premium / Regular / Restricted. The sqlite variants
(final.py, old.py) omit the email column; the model keeps the fullest
schema. -/
structure UserRec where
  id : Nat
  username : String
  email : String
  password : String
  user_type : String
deriving DecidableEq

/-- A row of the `tasks` table (final.py lines 18-30): serial id, owning
user_id, title, description, due_date, category, priority, and a completed
flag whose schema default is false. -/
structure TaskRec where
  id : Nat
  user_id : Nat
  title : String
  description : String
  due_date : String
  category : String
  priority : String
  completed : Bool
deriving DecidableEq

/-- The persistent state: the two tables plus the next serial id of each. -/
structure Store where
  users : List UserRec
  tasks : List TaskRec
  next_user_id : Nat
  next_task_id : Nat
deriving DecidableEq

/-- Status clause of get_tasks (final.py lines 42-45): filter_by equal to
"completed" appends `AND completed = 1`, "uncompleted" appends
`AND completed = 0`, anything else (None included) appends nothing. -/
def matchesStatus (filter_by : Option String) (t : TaskRec) : Bool :=
  if filter_by = some "completed" then t.completed
  else if filter_by = some "uncompleted" then !t.completed
  else true

/-- Category clause of get_tasks (final.py lines 46-48): the Python guard
`if category:` is truthiness, so None and the empty string both append no
clause; any other value appends `AND category = ?`. -/
def matchesCategory (category : Option String) (t : TaskRec) : Bool :=
  match category with
  | none => true
  | some s => if s = "" then true else t.category == s

/-- get_tasks (final.py lines 39-50, identical in database.py lines 74-85):
SELECT of the user's rows with the status and category clauses ANDed onto
`WHERE user_id = ?`. -/
def get_tasks (s : Store) (user_id : Nat) (filter_by : Option String)
    (category : Option String) : List TaskRec :=
  s.tasks.filter fun t =>
    t.user_id == user_id && matchesStatus filter_by t && matchesCategory category t

/-- add_task (final.py lines 34-37): INSERT of a new task row; `completed`
takes its schema default false, the id is the next serial value. -/
def add_task (s : Store) (user_id : Nat) (title description due_date category
    priority : String) : Store :=
  { s with
    tasks := s.tasks ++
      [{ id := s.next_task_id, user_id := user_id, title := title,
         description := description, due_date := due_date,
         category := category, priority := priority, completed := false }],
    next_task_id := s.next_task_id + 1 }

/-- update_task_status (final.py lines 52-54): `UPDATE tasks SET completed =
? WHERE id = ?`. -/
def update_task_status (s : Store) (task_id : Nat) (status : Bool) : Store :=
  { s with
    tasks := s.tasks.map fun t =>
      if t.id == task_id then { t with completed := status } else t }

/-- update_task (final.py lines 56-59): full-field overwrite of every column
but id, user_id and completed, for the row with the given id. -/
def update_task (s : Store) (task_id : Nat) (title description due_date
    category priority : String) : Store :=
  { s with
    tasks := s.tasks.map fun t =>
      if t.id == task_id then
        { t with
            title := title
            description := description
            due_date := due_date
            category := category
            priority := priority }
      else t }

/-- delete_task (final.py lines 61-63): `DELETE FROM tasks WHERE id = ?`. -/
def delete_task (s : Store) (task_id : Nat) : Store :=
  { s with tasks := s.tasks.filter fun t => !(t.id == task_id) }

/-- get_task_count (final.py lines 65-67): `SELECT COUNT(*) FROM tasks WHERE
user_id = ?`. -/
def get_task_count (s : Store) (user_id : Nat) : Nat :=
  (s.tasks.filter fun t => t.user_id == user_id).length

/-- signup_page commit path (database.py lines 171-187): INSERT into users;
the UNIQUE constraints on username and email raise IntegrityError when
either value is already present, in which case the handler shows the error
text and the store is untouched. Returned pair: the store after the request
and the error message, if any. -/
def signup_page (s : Store) (username email password user_type : String) :
    Store × Option String :=
  if s.users.any fun u => u.username == username || u.email == email then
    (s, some "Username or Email already exists.")
  else
    ({ s with
        users := s.users ++
          [{ id := s.next_user_id, username := username, email := email,
             password := password, user_type := user_type }],
        next_user_id := s.next_user_id + 1 }, none)

/-- login_page lookup (final.py lines 97-99, database.py lines 147-149):
`SELECT ... FROM users WHERE username = ? AND password = ?` with fetchone,
i.e. the first matching row or none. -/
def login_page (s : Store) (username password : String) : Option UserRec :=
  s.users.find? fun u => u.username == username && u.password == password

/-- TASK_LIMIT (with_mail.py lines 26-30): Regular 10, Restricted 5, and
Premium float inf, modelled as no limit. -/
def TASK_LIMIT (user_type : String) : Option Nat :=
  if user_type = "Regular" then some 10
  else if user_type = "Restricted" then some 5
  else none

/-- The quota comparison `current_task_count >= task_limit` of with_mail.py
line 183; against Premium's infinity it is always false. -/
def limitReached (user_type : String) (count : Nat) : Bool :=
  match TASK_LIMIT user_type with
  | some l => decide (l ≤ count)
  | none => false

/-- Add Task flow of with_mail.py task_dashboard (lines 181-199): the insert
runs only when the count is below the tier limit, otherwise the request is
refused with the limit error. Second component: whether a row was added. -/
def add_task_flow_with_mail (s : Store) (user_id : Nat) (user_type : String)
    (title description due_date category priority : String) : Store × Bool :=
  if limitReached user_type (get_task_count s user_id) then (s, false)
  else (add_task s user_id title description due_date category priority, true)

/-- Add Task flow of final.py task_dashboard tab2 (lines 193-210): the form
is replaced by an error only for a Regular user with count at least 10; on
submit an empty stripped title is refused, otherwise add_task runs. -/
def add_task_flow_final (s : Store) (user_id : Nat) (user_type : String)
    (title description due_date category priority : String) : Store × Bool :=
  if user_type = "Regular" ∧ 10 ≤ get_task_count s user_id then (s, false)
  else if title.trim = "" then (s, false)
  else (add_task s user_id title description due_date category priority, true)

/-- send_email (database.py lines 49-61): the whole body sits in
try/except, so a delivery failure only produces the st.error text; the
function touches no table either way. `deliveryOk` stands for the external
SMTP outcome. -/
def send_email (deliveryOk : Bool) (to_email subject body : String) :
    Option String :=
  if deliveryOk then none
  else some ("Error sending email to " ++ to_email ++ ": " ++ subject ++ body)

/-- add_task of database.py (lines 63-72): INSERT and commit first, then the
owner's email is looked up and the notification sent. -/
def add_task_mail (s : Store) (deliveryOk : Bool) (user_id : Nat)
    (title description due_date category priority : String) :
    Store × Option String :=
  let s2 := add_task s user_id title description due_date category priority
  let user_email :=
    ((s2.users.find? fun u => u.id == user_id).map UserRec.email).getD ""
  (s2, send_email deliveryOk user_email "New Task Added" title)

/-- update_task_status of database.py (lines 87-96): UPDATE and commit
first, then the notification. -/
def update_task_status_mail (s : Store) (deliveryOk : Bool) (task_id : Nat)
    (status : Bool) : Store × Option String :=
  let s2 := update_task_status s task_id status
  let owner := (s2.tasks.find? fun t => t.id == task_id).map TaskRec.user_id
  let user_email :=
    ((s2.users.find? fun u => some u.id == owner).map UserRec.email).getD ""
  (s2, send_email deliveryOk user_email "Task Status Updated"
    (if status then "completed" else "marked as incomplete"))

/-- delete_task of database.py (lines 105-113): the owner and title are read
before the DELETE and commit, and the notification is sent after. -/
def delete_task_mail (s : Store) (deliveryOk : Bool) (task_id : Nat) :
    Store × Option String :=
  let owner := (s.tasks.find? fun t => t.id == task_id).map TaskRec.user_id
  let s2 := delete_task s task_id
  let user_email :=
    ((s2.users.find? fun u => some u.id == owner).map UserRec.email).getD ""
  (s2, send_email deliveryOk user_email "Task Deleted" "")

/-- Add a Task flow of database.py task_dashboard tab2 (lines 288-298):
unlike the other variants this tab performs no quota check of any kind; the
insert (with its notification) runs unconditionally. -/
def add_task_flow_database (s : Store) (deliveryOk : Bool) (user_id : Nat)
    (title description due_date category priority : String) : Store × Bool :=
  ((add_task_mail s deliveryOk user_id title description due_date category
      priority).1, true)

end TaskApp

namespace TaskApp

/-- Store with one user and one already-completed task, used for the status
roundtrip counterexample. -/
def storeC2 : Store :=
  { users := [{ id := 1, username := "alice", email := "a@example.com",
                password := "pw", user_type := "Premium" }],
    tasks := [{ id := 1, user_id := 1, title := "t", description := "",
                due_date := "2025-01-01", category := "work",
                priority := "Low", completed := true }],
    next_user_id := 2, next_task_id := 2 }

/-- C2 counterexample: on a task whose original completed value is true,
setTaskStatus(id, true) followed by setTaskStatus(id, false) leaves the task
with completed = false, not its original value. -/
theorem C2_counterexample :
    storeC2.tasks.map TaskRec.completed = [true] ∧
    (update_task_status (update_task_status storeC2 1 true) 1 false).tasks.map
        TaskRec.completed = [false] := by
  decide

/-- C2 (amended): setTaskStatus(id, true) followed by setTaskStatus(id,
false) leaves the task with completed = false — equal to the original value
exactly when the task was originally uncompleted — and changes nothing else:
every other field of the row keeps its value, every other task row and the
users table are untouched. -/
theorem C2_status_roundtrip (s : Store) (tid : Nat) :
    (update_task_status (update_task_status s tid true) tid false).tasks
      = s.tasks.map (fun t =>
          if t.id == tid then { t with completed := false } else t) ∧
    (update_task_status (update_task_status s tid true) tid false).users
      = s.users := by
  refine ⟨?_, rfl⟩
  show (s.tasks.map _).map _ = s.tasks.map _
  rw [List.map_map]
  refine List.map_congr_left ?_
  intro t _
  by_cases hid : t.id == tid
  · simp [Function.comp, hid]
  · simp [Function.comp, hid]

/-- C3: for every user and category filter, the completed-filtered list and
the uncompleted-filtered list are the two halves of the unfiltered list:
each equals the corresponding sublist of the unfiltered result, their
concatenation is a permutation of it, and no task lies in both. -/
theorem C3_partition (s : Store) (uid : Nat) (cat : Option String) :
    get_tasks s uid (some "completed") cat
      = (get_tasks s uid none cat).filter (fun t => t.completed) ∧
    get_tasks s uid (some "uncompleted") cat
      = (get_tasks s uid none cat).filter (fun t => !t.completed) ∧
    (get_tasks s uid (some "completed") cat ++
        get_tasks s uid (some "uncompleted") cat).Perm
      (get_tasks s uid none cat) ∧
    ∀ t, ¬(t ∈ get_tasks s uid (some "completed") cat ∧
            t ∈ get_tasks s uid (some "uncompleted") cat) := by
  have hcomp : get_tasks s uid (some "completed") cat
      = (get_tasks s uid none cat).filter (fun t => t.completed) := by
    unfold get_tasks
    rw [List.filter_filter]
    refine List.filter_congr ?_
    intro t _
    simp only [matchesStatus]
    cases hb : (t.user_id == uid) <;> cases hc : t.completed <;>
      cases hm : matchesCategory cat t <;> simp
  have huncomp : get_tasks s uid (some "uncompleted") cat
      = (get_tasks s uid none cat).filter (fun t => !t.completed) := by
    unfold get_tasks
    rw [List.filter_filter]
    refine List.filter_congr ?_
    intro t _
    simp only [matchesStatus]
    cases hb : (t.user_id == uid) <;> cases hc : t.completed <;>
      cases hm : matchesCategory cat t <;> simp
  refine ⟨hcomp, huncomp, ?_, ?_⟩
  · rw [hcomp, huncomp]
    exact List.filter_append_perm (fun x : TaskRec => x.completed) _
  · intro t ⟨h1, h2⟩
    rw [hcomp, List.mem_filter] at h1
    rw [huncomp, List.mem_filter] at h2
    rw [h1.2] at h2
    exact absurd h2.2 (by simp)

/-- C8: in the mail-enabled variant every task mutation commits before the
notification is attempted, and send_email swallows its own failure, so the
store after a failed send equals the store after a successful send; for
createTask that shared store is exactly the committed insert. -/
theorem C8_mail_failure_no_rollback (s : Store) (uid tid : Nat) (b : Bool)
    (t d dd cat p : String) :
    (add_task_mail s false uid t d dd cat p).1
      = (add_task_mail s true uid t d dd cat p).1 ∧
    (update_task_status_mail s false tid b).1
      = (update_task_status_mail s true tid b).1 ∧
    (delete_task_mail s false tid).1 = (delete_task_mail s true tid).1 ∧
    (add_task_mail s false uid t d dd cat p).1 = add_task s uid t d dd cat p :=
  ⟨rfl, rfl, rfl, rfl⟩

end TaskApp

namespace TaskApp

/-- Store with one Regular user who already owns ten tasks, at the tier
limit of the spec. -/
def storeC1 : Store :=
  { users := [{ id := 1, username := "alice", email := "a@example.com",
                password := "pw", user_type := "Regular" }],
    tasks := (List.range 10).map fun i =>
      { id := i + 1, user_id := 1, title := "t", description := "",
        due_date := "2025-01-01", category := "", priority := "Low",
        completed := false },
    next_user_id := 2, next_task_id := 11 }

/-- C1 counterexample: the database.py variant's Add Task flow performs no
quota check, so a Regular user already holding ten tasks — at the tier
limit — still gets a new row and the count rises to eleven instead of the
request being rejected. -/
theorem C1_counterexample :
    get_task_count storeC1 1 = 10 ∧
    storeC1.users.map UserRec.user_type = ["Regular"] ∧
    (add_task_flow_database storeC1 true 1 "x" "" "2025-01-02" "" "Low").2
      = true ∧
    get_task_count
      (add_task_flow_database storeC1 true 1 "x" "" "2025-01-02" "" "Low").1 1
      = 11 := by
  decide

/-- C1 (amended): in the with_mail variant, for every user whose task count
is at or above the tier limit (Regular: 10, Restricted: 5, Premium: never
reached), the Add Task flow refuses the request and the user's task count
is unchanged; the other variants do not enforce this at the add flow. -/
theorem C1_quota_enforced (s : Store) (uid : Nat)
    (ty t d dd cat p : String)
    (hl : limitReached ty (get_task_count s uid) = true) :
    (add_task_flow_with_mail s uid ty t d dd cat p).2 = false ∧
    get_task_count (add_task_flow_with_mail s uid ty t d dd cat p).1 uid
      = get_task_count s uid := by
  simp [add_task_flow_with_mail, hl]

/-- C1 witness: the Regular user of storeC1, at ten tasks, is refused by the
with_mail flow and keeps the same count. -/
theorem C1_quota_witness :
    (add_task_flow_with_mail storeC1 1 "Regular" "x" "" "2025-01-02" "" "Low").2
      = false ∧
    get_task_count
      (add_task_flow_with_mail storeC1 1 "Regular" "x" "" "2025-01-02" "" "Low").1 1
      = get_task_count storeC1 1 :=
  C1_quota_enforced storeC1 1 "Regular" "x" "" "2025-01-02" "" "Low" (by decide)

/-- Store with one existing user, for the duplicate-signup fact. -/
def storeC4 : Store :=
  { users := [{ id := 1, username := "bob", email := "b@example.com",
                password := "pw", user_type := "Regular" }],
    tasks := [], next_user_id := 2, next_task_id := 1 }

/-- C4: a signup whose username or email is already present fails with the
uniqueness error and returns the store unchanged: no user row is added or
modified. -/
theorem C4_duplicate_signup (s : Store) (un em pw ty : String)
    (hdup : (s.users.any fun u => u.username == un || u.email == em) = true) :
    signup_page s un em pw ty
      = (s, some "Username or Email already exists.") := by
  simp [signup_page, hdup]

/-- C4 witness: re-using the username bob against storeC4 is refused and the
store comes back identical. -/
theorem C4_duplicate_witness :
    signup_page storeC4 "bob" "x@example.com" "pw2" "Premium"
      = (storeC4, some "Username or Email already exists.") :=
  C4_duplicate_signup storeC4 "bob" "x@example.com" "pw2" "Premium" (by decide)

/-- Empty store, for the signup-then-login roundtrip. -/
def storeC6 : Store :=
  { users := [], tasks := [], next_user_id := 1, next_task_id := 1 }

/-- C6: signing up credentials whose username and email are both unseen
succeeds, and a login with that username and password then returns a user
record carrying exactly the tier given at creation. -/
theorem C6_signup_then_login (s : Store) (un em pw ty : String)
    (hfresh : (s.users.any fun u => u.username == un || u.email == em)
      = false) :
    (signup_page s un em pw ty).2 = none ∧
    (login_page (signup_page s un em pw ty).1 un pw).map UserRec.user_type
      = some ty := by
  constructor
  · simp [signup_page, hfresh]
  · simp only [signup_page, hfresh, Bool.false_eq_true, if_false]
    rw [login_page]
    simp only [List.find?_append]
    have hnone : (s.users.find? fun u =>
        u.username == un && u.password == pw) = none := by
      rw [List.find?_eq_none]
      intro u hu
      have hne := List.any_eq_false.mp hfresh u hu
      simp only [Bool.or_eq_true, not_or] at hne
      simp [hne.1]
    rw [hnone]
    simp

/-- C6 witness: on the empty store, signup of carol followed by login as
carol succeeds and reports the Restricted tier chosen at signup. -/
theorem C6_signup_login_witness :
    (signup_page storeC6 "carol" "c@example.com" "pw" "Restricted").2
      = none ∧
    (login_page (signup_page storeC6 "carol" "c@example.com" "pw"
        "Restricted").1 "carol" "pw").map UserRec.user_type
      = some "Restricted" :=
  C6_signup_then_login storeC6 "carol" "c@example.com" "pw" "Restricted"
    (by decide)

end TaskApp

namespace TaskApp

/-- Helper for C5: over a task list with pairwise-distinct ids, filtering
out an id that is present removes exactly one element. -/
theorem filter_out_id_length (tid : Nat) :
    ∀ l : List TaskRec, (l.map TaskRec.id).Nodup → (∃ t ∈ l, t.id = tid) →
      (l.filter fun t => !(t.id == tid)).length + 1 = l.length := by
  intro l
  induction l with
  | nil => intro _ hex; exact absurd hex (by simp)
  | cons a l ih =>
    intro hnd hex
    rw [List.map_cons, List.nodup_cons] at hnd
    by_cases ha : a.id = tid
    · have hrest : ∀ t ∈ l, (!(t.id == tid)) = true := by
        intro t ht
        have hne : t.id ≠ tid := by
          intro htid
          have hmem : t.id ∈ l.map TaskRec.id := List.mem_map_of_mem _ ht
          rw [htid, ← ha] at hmem
          exact hnd.1 hmem
        simp [hne]
      have hkeep : (l.filter fun t => !(t.id == tid)) = l :=
        List.filter_eq_self.mpr hrest
      simp [List.filter_cons, ha, hkeep]
    · have hex' : ∃ t ∈ l, t.id = tid := by
        rcases hex with ⟨t, ht, htid⟩
        rcases List.mem_cons.mp ht with h | h
        · exact absurd (h ▸ htid) ha
        · exact ⟨t, h, htid⟩
      have hlen := ih hnd.2 hex'
      have hba : (a.id == tid) = false := by simp [ha]
      simp only [List.filter_cons, hba, Bool.not_false, if_true,
        List.length_cons]
      omega

/-- C5: when task ids are pairwise distinct (the serial-id invariant) and a
task with the given id exists, deleteTask removes exactly one row, and the
listTasks view of any user under any filters never contains that id
afterwards. -/
theorem C5_delete_removes_one (s : Store) (tid uid : Nat)
    (f cat : Option String)
    (hnd : (s.tasks.map TaskRec.id).Nodup)
    (hex : ∃ t ∈ s.tasks, t.id = tid) :
    (delete_task s tid).tasks.length + 1 = s.tasks.length ∧
    (get_tasks (delete_task s tid) uid f cat).all
      (fun t => !(t.id == tid)) = true := by
  refine ⟨filter_out_id_length tid s.tasks hnd hex, ?_⟩
  rw [List.all_eq_true]
  intro t ht
  simp only [get_tasks, delete_task, List.mem_filter] at ht
  simp [ht.1.2]

/-- Store with two tasks of one user, for the delete witness. -/
def storeC5 : Store :=
  { users := [{ id := 1, username := "alice", email := "a@example.com",
                password := "pw", user_type := "Premium" }],
    tasks := [{ id := 1, user_id := 1, title := "t1", description := "",
                due_date := "2025-01-01", category := "w", priority := "Low",
                completed := false },
              { id := 2, user_id := 1, title := "t2", description := "",
                due_date := "2025-01-02", category := "w", priority := "Low",
                completed := true }],
    next_user_id := 2, next_task_id := 3 }

/-- C5 witness: deleting task 1 of storeC5 drops exactly one of the two
rows and the unfiltered listing no longer holds id 1. -/
theorem C5_delete_witness :
    (delete_task storeC5 1).tasks.length + 1 = storeC5.tasks.length ∧
    (get_tasks (delete_task storeC5 1) 1 none none).all
      (fun t => !(t.id == 1)) = true :=
  C5_delete_removes_one storeC5 1 1 none none (by decide) (by decide)

end TaskApp

namespace TaskApp

/-- The spec's reading of the status filter, for comparison with the code's
clause: none constrains nothing, completed demands a completed task,
uncompleted an uncompleted one. -/
def SpecStatusOk (filter_by : Option String) (t : TaskRec) : Prop :=
  (filter_by = some "completed" → t.completed = true) ∧
  (filter_by = some "uncompleted" → t.completed = false)

/-- The spec's reading of the category filter, for comparison with the
code's clause: none constrains nothing, a value demands that exact
category. -/
def SpecCategoryOk (category : Option String) (t : TaskRec) : Prop :=
  ∀ v, category = some v → t.category = v

/-- The code's status clause agrees with the spec's reading for every
filter value. -/
theorem matchesStatus_true_iff (f : Option String) (t : TaskRec) :
    matchesStatus f t = true ↔ SpecStatusOk f t := by
  rcases f with _ | v
  · simp [matchesStatus, SpecStatusOk]
  · rcases eq_or_ne v "completed" with h | h
    · subst h; simp [matchesStatus, SpecStatusOk]
    · rcases eq_or_ne v "uncompleted" with h2 | h2
      · subst h2; simp [matchesStatus, SpecStatusOk, h]
      · simp [matchesStatus, SpecStatusOk, h, h2]

/-- The code's category clause agrees with the spec's reading for every
filter that is none or a nonempty value. -/
theorem matchesCategory_true_iff (cat : Option String) (t : TaskRec)
    (hcat : cat ≠ some "") :
    matchesCategory cat t = true ↔ SpecCategoryOk cat t := by
  rcases cat with _ | v
  · simp [matchesCategory, SpecCategoryOk]
  · have hv : ¬(v = "") := fun h => hcat (by rw [h])
    simp [matchesCategory, SpecCategoryOk, hv]

/-- Store with one task of nonempty category, for the empty-category-filter
counterexample. -/
def storeC7 : Store :=
  { users := [{ id := 1, username := "alice", email := "a@example.com",
                password := "pw", user_type := "Premium" }],
    tasks := [{ id := 1, user_id := 1, title := "t", description := "",
                due_date := "2025-01-01", category := "work",
                priority := "Low", completed := false }],
    next_user_id := 2, next_task_id := 2 }

/-- C7 counterexample: under the category filter value "" the filters are
not conjunctive: get_tasks returns a task whose category is "work", which
does not satisfy the category filter "". -/
theorem C7_counterexample :
    (get_tasks storeC7 1 none (some "")).map TaskRec.category = ["work"] ∧
    ¬("work" = "") := by
  decide

/-- C7 (amended): for every status filter and every category filter that is
none or a nonempty value, listTasks returns exactly the tasks satisfying
both filters and the user (conjunctive AND), as a subsequence of the
insertion-ordered task table; the category filter "" is instead treated as
no category filter. -/
theorem C7_conjunctive_filters (s : Store) (uid : Nat)
    (f cat : Option String) (tk : TaskRec) (hcat : cat ≠ some "") :
    (tk ∈ get_tasks s uid f cat ↔
      tk ∈ s.tasks ∧ tk.user_id = uid ∧ SpecStatusOk f tk ∧
        SpecCategoryOk cat tk) ∧
    (get_tasks s uid f cat).Sublist s.tasks := by
  refine ⟨?_, List.filter_sublist _⟩
  rw [get_tasks, List.mem_filter]
  constructor
  · rintro ⟨hmem, hpred⟩
    rw [Bool.and_eq_true, Bool.and_eq_true] at hpred
    exact ⟨hmem, beq_iff_eq.mp hpred.1.1,
      (matchesStatus_true_iff f tk).mp hpred.1.2,
      (matchesCategory_true_iff cat tk hcat).mp hpred.2⟩
  · rintro ⟨hmem, huid, hst, hct⟩
    refine ⟨hmem, ?_⟩
    rw [Bool.and_eq_true, Bool.and_eq_true]
    exact ⟨⟨beq_iff_eq.mpr huid, (matchesStatus_true_iff f tk).mpr hst⟩,
      (matchesCategory_true_iff cat tk hcat).mpr hct⟩

/-- C7 witness: on storeC7 with the completed filter and category "work",
the task of storeC7 is listed exactly when it matches both filters, and the
listing is a subsequence of the table. -/
theorem C7_conjunctive_witness :
    ((storeC7.tasks.get ⟨0, by decide⟩) ∈
        get_tasks storeC7 1 (some "completed") (some "work") ↔
      (storeC7.tasks.get ⟨0, by decide⟩) ∈ storeC7.tasks ∧
      (storeC7.tasks.get ⟨0, by decide⟩).user_id = 1 ∧
      SpecStatusOk (some "completed") (storeC7.tasks.get ⟨0, by decide⟩) ∧
      SpecCategoryOk (some "work") (storeC7.tasks.get ⟨0, by decide⟩)) ∧
    (get_tasks storeC7 1 (some "completed") (some "work")).Sublist
      storeC7.tasks :=
  C7_conjunctive_filters storeC7 1 (some "completed") (some "work")
    (storeC7.tasks.get ⟨0, by decide⟩) (by decide)

/-- C9: the empty string as category filter behaves exactly like no
category filter, and under any nonempty category filter value no returned
task has the empty category, so a task of empty category appears only in
effectively unfiltered listings. -/
theorem C9_empty_category_filter (s : Store) (uid : Nat)
    (f : Option String) (v : String) (hv : v ≠ "") :
    get_tasks s uid f (some "") = get_tasks s uid f none ∧
    (get_tasks s uid f (some v)).all
      (fun t => !(t.category == "")) = true := by
  constructor
  · show s.tasks.filter _ = s.tasks.filter _
    refine List.filter_congr ?_
    intro t _
    simp [matchesCategory]
  · rw [List.all_eq_true]
    intro t ht
    rw [get_tasks, List.mem_filter] at ht
    have hpred := ht.2
    rw [Bool.and_eq_true] at hpred
    have hm : matchesCategory (some v) t = true := hpred.2
    simp only [matchesCategory, if_neg hv] at hm
    have : t.category = v := beq_iff_eq.mp hm
    simp [this, hv]

/-- C9 witness: on storeC7, the ""-filtered listing equals the unfiltered
one, and the "work"-filtered listing holds no empty-category task. -/
theorem C9_empty_category_witness :
    get_tasks storeC7 1 none (some "") = get_tasks storeC7 1 none none ∧
    (get_tasks storeC7 1 none (some "work")).all
      (fun t => !(t.category == "")) = true :=
  C9_empty_category_filter storeC7 1 none "work" (by decide)

end TaskApp

namespace TaskApp

/-- Helper for C10: mapping a function that either fixes a row or keeps the
filter predicate false before and after leaves the filtered list
unchanged. -/
theorem filter_map_of_fix_or_false (p : TaskRec → Bool)
    (g : TaskRec → TaskRec) :
    ∀ l : List TaskRec,
      (∀ t ∈ l, g t = t ∨ (p t = false ∧ p (g t) = false)) →
      (l.map g).filter p = l.filter p := by
  intro l
  induction l with
  | nil => intro _; rfl
  | cons a l ih =>
    intro h
    have hl := ih fun t ht => h t (List.mem_cons_of_mem a ht)
    rcases h a (List.mem_cons_self a l) with ha | ⟨hpa, hpga⟩
    · simp only [List.map_cons, List.filter_cons, ha, hl]
    · simp [List.filter_cons, hpa, hpga, hl]

/-- Helper for C10: pre-filtering by q cannot change a p-filter when every
row q drops already fails p. -/
theorem filter_filter_of_drop_false (p q : TaskRec → Bool) :
    ∀ l : List TaskRec, (∀ t ∈ l, q t = false → p t = false) →
      (l.filter q).filter p = l.filter p := by
  intro l
  induction l with
  | nil => intro _; rfl
  | cons a l ih =>
    intro h
    have hl := ih fun t ht => h t (List.mem_cons_of_mem a ht)
    by_cases hqa : q a = true
    · simp [List.filter_cons, hqa, hl]
    · have hqa' : q a = false := by
        cases hq2 : q a
        · rfl
        · exact absurd hq2 hqa
      have hpa : p a = false := h a (List.mem_cons_self a l) hqa'
      simp [List.filter_cons, hqa', hpa, hl]

/-- Helper for C10: the filter predicate of another user's get_tasks fails
on every row the other user does not own. -/
theorem other_user_pred_false (v : Nat) (f cat : Option String)
    (tk : TaskRec) (h : tk.user_id ≠ v) :
    (tk.user_id == v && matchesStatus f tk && matchesCategory cat tk)
      = false := by
  have h0 : (tk.user_id == v) = false := by simp [h]
  rw [h0, Bool.false_and, Bool.false_and]

/-- C10: listTasks of a user returns only rows that user owns; and
createTask for user u, as well as setTaskStatus, updateTask and deleteTask
of an id whose rows all belong to u, leave the listTasks view of any other
user v unchanged, for every filter combination. -/
theorem C10_user_isolation (s : Store) (u v tid : Nat) (b : Bool)
    (f cat : Option String) (t d dd ct p : String)
    (huv : u ≠ v)
    (htid : ∀ tk ∈ s.tasks, tk.id = tid → tk.user_id = u) :
    (get_tasks s u f cat).all (fun tk => tk.user_id == u) = true ∧
    get_tasks (add_task s u t d dd ct p) v f cat = get_tasks s v f cat ∧
    get_tasks (update_task_status s tid b) v f cat
      = get_tasks s v f cat ∧
    get_tasks (update_task s tid t d dd ct p) v f cat
      = get_tasks s v f cat ∧
    get_tasks (delete_task s tid) v f cat = get_tasks s v f cat := by
  have hown : ∀ tk ∈ s.tasks, tk.id = tid →
      (tk.user_id == v) = false := by
    intro tk htk hid
    have := htid tk htk hid
    simp [this, huv]
  refine ⟨?_, ?_, ?_, ?_, ?_⟩
  · rw [List.all_eq_true]
    intro tk htk
    rw [get_tasks, List.mem_filter] at htk
    have hpred := htk.2
    rw [Bool.and_eq_true, Bool.and_eq_true] at hpred
    exact hpred.1.1
  · show (s.tasks ++ _).filter _ = s.tasks.filter _
    rw [List.filter_append]
    have hnew : ((u : Nat) == v) = false := by simp [huv]
    simp [List.filter_cons, hnew]
  · show (s.tasks.map _).filter _ = s.tasks.filter _
    refine filter_map_of_fix_or_false _ _ s.tasks ?_
    intro tk htk
    by_cases hid : tk.id = tid
    · right
      have h0 := hown tk htk hid
      have hbid : (tk.id == tid) = true := by simp [hid]
      constructor
      · rw [h0, Bool.false_and, Bool.false_and]
      · rw [if_pos hbid]
        show ((tk.user_id == v) && _ && _) = false
        rw [h0, Bool.false_and, Bool.false_and]
    · left
      have hbid : (tk.id == tid) = false := by simp [hid]
      simp [hbid]
  · show (s.tasks.map _).filter _ = s.tasks.filter _
    refine filter_map_of_fix_or_false _ _ s.tasks ?_
    intro tk htk
    by_cases hid : tk.id = tid
    · right
      have h0 := hown tk htk hid
      have hbid : (tk.id == tid) = true := by simp [hid]
      constructor
      · rw [h0, Bool.false_and, Bool.false_and]
      · rw [if_pos hbid]
        show ((tk.user_id == v) && _ && _) = false
        rw [h0, Bool.false_and, Bool.false_and]
    · left
      have hbid : (tk.id == tid) = false := by simp [hid]
      simp [hbid]
  · show (s.tasks.filter _).filter _ = s.tasks.filter _
    refine filter_filter_of_drop_false _ _ s.tasks ?_
    intro tk htk hq
    have hid : tk.id = tid := by
      have : (tk.id == tid) = true := by
        cases h2 : (tk.id == tid)
        · rw [h2] at hq; exact absurd hq (by decide)
        · rfl
      exact beq_iff_eq.mp this
    have h0 := hown tk htk hid
    rw [h0, Bool.false_and, Bool.false_and]

/-- Store with two users owning one task each, for the isolation witness. -/
def storeC10 : Store :=
  { users := [{ id := 1, username := "alice", email := "a@example.com",
                password := "pw", user_type := "Premium" },
              { id := 2, username := "bob", email := "b@example.com",
                password := "pw", user_type := "Regular" }],
    tasks := [{ id := 1, user_id := 1, title := "t1", description := "",
                due_date := "2025-01-01", category := "w",
                priority := "Low", completed := false },
              { id := 2, user_id := 2, title := "t2", description := "",
                due_date := "2025-01-02", category := "w",
                priority := "Low", completed := true }],
    next_user_id := 3, next_task_id := 3 }

/-- C10 witness: every mutation addressed to task 1 of user 1 in storeC10
leaves user 2's unfiltered listing unchanged, and user 1's listing holds
only user 1's rows. -/
theorem C10_isolation_witness :
    (get_tasks storeC10 1 none none).all (fun tk => tk.user_id == 1)
      = true ∧
    get_tasks (add_task storeC10 1 "x" "" "2025-01-03" "w" "Low") 2 none none
      = get_tasks storeC10 2 none none ∧
    get_tasks (update_task_status storeC10 1 true) 2 none none
      = get_tasks storeC10 2 none none ∧
    get_tasks (update_task storeC10 1 "x" "" "2025-01-03" "w" "Low") 2
        none none
      = get_tasks storeC10 2 none none ∧
    get_tasks (delete_task storeC10 1) 2 none none
      = get_tasks storeC10 2 none none :=
  C10_user_isolation storeC10 1 2 1 true none none "x" "" "2025-01-03" "w"
    "Low" (by decide) (by decide)

end TaskApp
